import Mathlib

/-!
Verification of the Rate-Law Generator & Binder of the Lauterbach 2021
Scenario-5 notebooks.  The notebooks drive PyEnzyme's
`KineticModel.createGenerator` factory: a symbolic rate-law template with
declared parameters is constructed once and then bound against concrete
reaction species, optionally renaming template parameters onto
document-level global parameter symbols.  The generator/binder
implementation itself lives in the external PyEnzyme library, so the
operational definitions below are modelled from the specification's
description of that component (sections 3, 4.1, 4.2 and 4.3); the concrete
templates, bindings and document edits are taken verbatim from the
notebook source.
-/

set_option autoImplicit false

namespace EnzymeML

/-- Errors raised at template-construction time (malformed template). -/
structure TemplateError where
  msg : String
deriving DecidableEq, Repr

/-- Errors raised at binding time (unresolved free variables). -/
structure BindingError where
  msg : String
deriving DecidableEq, Repr

/-- Errors raised by the pre-export consistency check. -/
structure ConsistencyError where
  msg : String
deriving DecidableEq, Repr

/-- Configuration record accepted for one declared parameter of a
template: a physical unit, a constancy flag (default false) and an
optional numeric initial value. -/
structure ParamConfig where
  unit : Option String := none
  constant : Bool := false
  value : Option Rat := none
deriving DecidableEq, Repr

/-- A parameter declared by a model template, or (after renaming) a
resolved parameter symbol of a bound model: the metadata of a
`KineticParameter` travels with the (possibly renamed) symbol. -/
structure KineticParameter where
  name : String
  unit : Option String
  constant : Bool
  value : Option Rat
deriving DecidableEq, Repr

/-- A lexical chunk of an equation string: either a maximal run of
identifier characters (a token: parameter name or free variable) or a
maximal run of non-identifier characters (operators, spaces, brackets). -/
inductive Chunk where
  | id (s : String)
  | sym (s : String)
deriving DecidableEq, Repr

/-- Identifier characters of the template language: ASCII letters,
digits and underscore.  Species names substituted at binding time may
contain other characters (such as the middle dot of complex names), but
template equations are written over plain identifiers. -/
def isIdentChar (c : Char) : Bool :=
  c.isAlphanum || c == '_'

/-- Prepend one character to an already-chunked tail, merging it into the
head chunk when it has the same lexical kind. -/
def consChar (c : Char) : List Chunk → List Chunk
  | [] =>
      if isIdentChar c then [Chunk.id (String.singleton c)]
      else [Chunk.sym (String.singleton c)]
  | Chunk.id s :: rest =>
      if isIdentChar c then Chunk.id (String.singleton c ++ s) :: rest
      else Chunk.sym (String.singleton c) :: Chunk.id s :: rest
  | Chunk.sym s :: rest =>
      if isIdentChar c then Chunk.id (String.singleton c) :: Chunk.sym s :: rest
      else Chunk.sym (String.singleton c ++ s) :: rest

/-- Split an equation string into its lexical chunks. -/
def tokenize (equation : String) : List Chunk :=
  equation.data.foldr consChar []

/-- The identifier tokens of an equation string, in left-to-right order
(with repetitions). -/
def identTokens (equation : String) : List String :=
  (tokenize equation).filterMap fun
    | Chunk.id s => some s
    | Chunk.sym _ => none

/-- Modelled from the spec: the immutable `ModelTemplate` value produced
by PyEnzyme's `KineticModel.createGenerator` (not part of this
repository's sources): a template name, an equation string over parameter
tokens and free-variable tokens, and the ordered declared parameters. -/
structure ModelTemplate where
  name : String
  equation : String
  parameters : List KineticParameter
deriving DecidableEq, Repr

/-- The declared parameter names of a template. -/
def ModelTemplate.paramNames (t : ModelTemplate) : List String :=
  t.parameters.map KineticParameter.name

/-- The free-variable tokens of a template: every identifier token of the
equation that is not a declared parameter name, in scan order. -/
def ModelTemplate.freeTokens (t : ModelTemplate) : List String :=
  (identTokens t.equation).filter fun tok => !(t.paramNames.contains tok)

namespace KineticModel

/-- Modelled from the spec: PyEnzyme's `KineticModel.createGenerator`
factory (not part of this repository's sources).  Validates that the
equation is non-empty and that every declared parameter appears as a
token of the equation; on success produces the immutable template, with
no side effects. -/
def createGenerator (name : String) (equation : String)
    (decls : List (String × ParamConfig)) :
    Except TemplateError ModelTemplate :=
  if equation = "" then
    Except.error ⟨"empty equation"⟩
  else if decls.all (fun pc => (identTokens equation).contains pc.1) then
    Except.ok
      { name := name
        equation := equation
        parameters :=
          decls.map fun pc => ⟨pc.1, pc.2.unit, pc.2.constant, pc.2.value⟩ }
  else
    Except.error ⟨"declared parameter not used"⟩

end KineticModel

/-- A value bound to one free variable of a template: a single species
identifier, or an ordered list of species identifiers. -/
inductive Binding where
  | single (s : String)
  | multiple (ss : List String)
deriving DecidableEq, Repr

/-- The species identifiers a binding supplies. -/
def Binding.speciesOf : Binding → List String
  | Binding.single s => [s]
  | Binding.multiple ss => ss

/-- Modelled from the spec: the `BoundModel` produced by invoking a
generator (not part of this repository's sources).  Carries the fully
substituted equation string, the table mapping each template parameter
name to its resolved (possibly renamed) parameter symbol with the
template's metadata, and the species identifiers consumed by the
substitution (recorded for the pre-export consistency check). -/
structure BoundModel where
  name : String
  equation : String
  parameters : List (String × KineticParameter)
  species : List String
deriving DecidableEq, Repr

/-- Substitution text for a list-valued binding: the species combined
additively inside parentheses, matching the spec's mass-action example
`product=[E, 7-ADCA]` resolving to `(E + 7-ADCA)`. -/
def combineList (ss : List String) : String :=
  "(" ++ String.intercalate " + " ss ++ ")"

/-- Resolve one chunk of a template equation: operator chunks pass
through, parameter tokens are renamed through the mapping (identity when
absent), and free-variable tokens are replaced by their bound species
text; an unbound free variable is a `BindingError`. -/
def resolveChunk (params : List String) (bindings : List (String × Binding))
    (mapping : List (String × String)) : Chunk → Except BindingError String
  | Chunk.sym s => Except.ok s
  | Chunk.id tok =>
      if params.contains tok then
        Except.ok ((mapping.lookup tok).getD tok)
      else
        match bindings.lookup tok with
        | none => Except.error ⟨"unbound free variable"⟩
        | some (Binding.single s) => Except.ok s
        | some (Binding.multiple ss) => Except.ok (combineList ss)

/-- Resolve a chunk list left to right, concatenating the resolved text;
fails at the first unbound free variable. -/
def resolveChunks (params : List String) (bindings : List (String × Binding))
    (mapping : List (String × String)) : List Chunk → Except BindingError String
  | [] => Except.ok ""
  | c :: cs =>
      match resolveChunk params bindings mapping c with
      | Except.error e => Except.error e
      | Except.ok s =>
          match resolveChunks params bindings mapping cs with
          | Except.error e => Except.error e
          | Except.ok rest => Except.ok (s ++ rest)

/-- Total (error-free) resolution of one chunk, used to describe the
equation a successful bind produces: identical to `resolveChunk` on every
chunk whose free variable is bound. -/
def resolveChunkTotal (params : List String) (bindings : List (String × Binding))
    (mapping : List (String × String)) : Chunk → String
  | Chunk.sym s => s
  | Chunk.id tok =>
      if params.contains tok then (mapping.lookup tok).getD tok
      else
        match bindings.lookup tok with
        | none => tok
        | some (Binding.single s) => s
        | some (Binding.multiple ss) => combineList ss

/-- Total resolution of a chunk list: the concatenated resolved text,
identical to what a successful bind produces. -/
def resolveChunksTotal (params : List String) (bindings : List (String × Binding))
    (mapping : List (String × String)) : List Chunk → String
  | [] => ""
  | c :: cs =>
      resolveChunkTotal params bindings mapping c ++
        resolveChunksTotal params bindings mapping cs

/-- How many times a token occurs in an equation string. -/
def occurrenceCount (tok : String) (equation : String) : Nat :=
  (identTokens equation).count tok

/-- The resolved parameter table of a bind: every declared template
parameter keeps its metadata and is renamed through the mapping, falling
through to the identity name when no entry is given. -/
def resolvedParams (t : ModelTemplate) (mapping : List (String × String)) :
    List (String × KineticParameter) :=
  t.parameters.map fun p =>
    (p.name, ⟨(mapping.lookup p.name).getD p.name, p.unit, p.constant, p.value⟩)

/-- The species identifiers a bind consumes: the bound species of every
free-variable token of the template, in scan order. -/
def boundSpecies (t : ModelTemplate) (bindings : List (String × Binding)) :
    List String :=
  (t.freeTokens.filterMap fun tok => bindings.lookup tok).flatMap Binding.speciesOf

/-- Modelled from the spec: invoking a generator (PyEnzyme's
`ModelFactory.__call__`, not part of this repository's sources).
Substitutes every free-variable token of the template equation by its
bound species text, rewrites parameter tokens through the mapping, and
returns the `BoundModel`; fails with a `BindingError` when a free
variable has no entry.  Produces only its return value: no document,
reaction or template state is read or written. -/
def bind (t : ModelTemplate) (bindings : List (String × Binding))
    (mapping : List (String × String)) : Except BindingError BoundModel :=
  match resolveChunks t.paramNames bindings mapping (tokenize t.equation) with
  | Except.error e => Except.error e
  | Except.ok eqn =>
      Except.ok
        { name := t.name
          equation := eqn
          parameters := resolvedParams t mapping
          species := boundSpecies t bindings }

/-- A keyword-argument value of a generator invocation: a single species
identifier, an ordered species list, or the parameter-rename table. -/
inductive KwVal where
  | species (s : String)
  | speciesList (ss : List String)
  | table (m : List (String × String))
deriving DecidableEq, Repr

/-- The rename table a keyword-argument list supplies: the value of the
argument named `mapping` when it is a table, empty otherwise. -/
def kwMapping (kwargs : List (String × KwVal)) : List (String × String) :=
  match kwargs.lookup "mapping" with
  | some (KwVal.table m) => m
  | _ => []

/-- The free-variable bindings a keyword-argument list supplies: every
argument other than the one named `mapping`, with species values turned
into bindings. -/
def kwBindings : List (String × KwVal) → List (String × Binding)
  | [] => []
  | (n, v) :: rest =>
      if n = "mapping" then kwBindings rest
      else
        match v with
        | KwVal.species s => (n, Binding.single s) :: kwBindings rest
        | KwVal.speciesList ss => (n, Binding.multiple ss) :: kwBindings rest
        | KwVal.table _ => kwBindings rest

/-- Modelled from the spec: calling a generator object with keyword
arguments, as the notebook does (`mass_eq(product=[...], substrate=...,
mapping={...})`).  The argument named `mapping` is always taken as the
parameter-rename table; every other argument is a free-variable
binding. -/
def callGenerator (t : ModelTemplate) (kwargs : List (String × KwVal)) :
    Except BindingError BoundModel :=
  bind t (kwBindings kwargs) (kwMapping kwargs)

/-- A document-level global parameter: name, unit and constancy flag,
shared by reference across the bound models that rename onto it. -/
structure GlobalParameter where
  name : String
  unit : Option String
  constant : Bool
deriving DecidableEq, Repr

/-- A reaction of the document: identifier, human name, reversibility,
educt and product species references, and the optional bound kinetic
model attached by the caller after a generator invocation. -/
structure EnzymeReaction where
  id : String
  name : String
  reversible : Bool
  educts : List String
  products : List String
  model : Option BoundModel
deriving DecidableEq, Repr

/-- Modelled from the spec: the document holding the species registry,
the global-parameter registry and the reactions (PyEnzyme's
`EnzymeMLDocument`, not part of this repository's sources). -/
structure EnzymeMLDocument where
  species : List String
  global_parameters : List GlobalParameter
  reactions : List EnzymeReaction
deriving DecidableEq, Repr

namespace EnzymeMLDocument

/-- Modelled from the spec: `enzmldoc.addGlobalParameter(name, unit,
constant)` registers one document-level parameter. -/
def addGlobalParameter (doc : EnzymeMLDocument) (name : String)
    (unit : Option String) (constant : Bool) : EnzymeMLDocument :=
  { doc with global_parameters := doc.global_parameters ++ [⟨name, unit, constant⟩] }

/-- Modelled from the spec: `enzmldoc.addReactions([...])` appends the
reactions to the document. -/
def addReactions (doc : EnzymeMLDocument) (rs : List EnzymeReaction) :
    EnzymeMLDocument :=
  { doc with reactions := doc.reactions ++ rs }

/-- Whether a parameter symbol is registered as a document-level global
parameter; a resolved symbol that is not becomes reaction-local at
export. -/
def isGlobalSymbol (doc : EnzymeMLDocument) (n : String) : Bool :=
  doc.global_parameters.any fun g => g.name == n

/-- Every resolved parameter symbol occurring in the document, with its
attributes: the registered globals followed by the resolved parameter
entries of every bound model. -/
def symbolEntries (doc : EnzymeMLDocument) : List KineticParameter :=
  doc.global_parameters.map (fun g => ⟨g.name, g.unit, g.constant, none⟩) ++
    doc.reactions.flatMap fun r =>
      match r.model with
      | some m => m.parameters.map Prod.snd
      | none => []

/-- Attribute agreement across the document: any two occurrences of the
same resolved parameter symbol carry the same unit and constancy flag. -/
def attributesAgree (doc : EnzymeMLDocument) : Bool :=
  (symbolEntries doc).all fun e₁ =>
    (symbolEntries doc).all fun e₂ =>
      e₁.name != e₂.name || (e₁.unit == e₂.unit && e₁.constant == e₂.constant)

/-- Species check: every species identifier consumed by a bound model is
present in the document's species registry. -/
def speciesKnown (doc : EnzymeMLDocument) : Bool :=
  doc.reactions.all fun r =>
    match r.model with
    | some m => m.species.all fun s => doc.species.contains s
    | none => true

/-- Modelled from the spec: the consistency check run before a document
containing bound models is exported: every referenced species exists and
every resolved parameter symbol has non-conflicting attributes across its
occurrences. -/
def consistencyCheck (doc : EnzymeMLDocument) : Except ConsistencyError Unit :=
  if !speciesKnown doc then Except.error ⟨"unknown species"⟩
  else if !attributesAgree doc then
    Except.error ⟨"conflicting parameter attributes"⟩
  else Except.ok ()

/-- A completed export: the full serialized snapshot of the document. -/
structure ExportedArchive where
  content : EnzymeMLDocument
deriving DecidableEq, Repr

/-- Modelled from the spec: `enzmldoc.toFile(...)` runs the consistency
check and either produces the complete archive or aborts with a
`ConsistencyError` and produces nothing. -/
def toFile (doc : EnzymeMLDocument) : Except ConsistencyError ExportedArchive :=
  match consistencyCheck doc with
  | Except.error e => Except.error e
  | Except.ok _ => Except.ok ⟨doc⟩

/-- Modelled from the spec: the export step as a state transformer over
the in-memory document, making explicit that a failed export leaves the
document exactly as it was. -/
def exportStep (doc : EnzymeMLDocument) :
    EnzymeMLDocument × Except ConsistencyError ExportedArchive :=
  (doc, toFile doc)

end EnzymeMLDocument

/-- The caller's in-memory state around a generator invocation: the
document and the reactions built so far. -/
structure SessionState where
  doc : EnzymeMLDocument
  reactions : List EnzymeReaction
deriving DecidableEq, Repr

/-- Modelled from the spec: a generator invocation as a step on the
caller's state — it produces the `BoundModel` value and nothing else; the
document, the reactions and the template are not touched. -/
def invokeGenerator (st : SessionState) (t : ModelTemplate)
    (bindings : List (String × Binding)) (mapping : List (String × String)) :
    SessionState × Except BindingError BoundModel :=
  (st, bind t bindings mapping)

/-- Attaching a bound model to a reaction (`r1.model = mass_eq(...)`):
the separate caller action that follows a successful invocation. -/
def attachModel (r : EnzymeReaction) (m : BoundModel) : EnzymeReaction :=
  { r with model := some m }

namespace Scenario5

/-- The generator declared in the notebook cell setting up the
`Example-Model`: equation `param * substrate` with one parameter. -/
def example_gen : Except TemplateError ModelTemplate :=
  KineticModel.createGenerator "Example-Model" "param * substrate"
    [("param", {unit := some "1 / s"})]

/-- The notebook's reversible mass-action generator. -/
def eq_rev : Except TemplateError ModelTemplate :=
  KineticModel.createGenerator "MassAction Reversible"
    "K_1 * substrate - K_2 * product"
    [("K_1", {unit := some "1 / min"}), ("K_2", {unit := some "1 / min"})]

/-- The notebook's irreversible mass-action generator. -/
def eq_irrev : Except TemplateError ModelTemplate :=
  KineticModel.createGenerator "MassAction Irreversible" "K_1 * substrate"
    [("K_1", {unit := some "1 / min"})]

/-- The notebook's equilibrium mass-action generator. -/
def mass_eq : Except TemplateError ModelTemplate :=
  KineticModel.createGenerator "MassAction Keq" "v_r*(K_eq * substrate - product)"
    [("K_eq", {unit := some "mmole / l"}),
     ("v_r", {unit := some "l / mmole min", constant := true})]

/-- The template value `eq_rev` constructs. -/
def eq_rev_template : ModelTemplate :=
  { name := "MassAction Reversible"
    equation := "K_1 * substrate - K_2 * product"
    parameters :=
      [⟨"K_1", some "1 / min", false, none⟩, ⟨"K_2", some "1 / min", false, none⟩] }

/-- The template value `eq_irrev` constructs. -/
def eq_irrev_template : ModelTemplate :=
  { name := "MassAction Irreversible"
    equation := "K_1 * substrate"
    parameters := [⟨"K_1", some "1 / min", false, none⟩] }

/-- The template value `mass_eq` constructs. -/
def mass_eq_template : ModelTemplate :=
  { name := "MassAction Keq"
    equation := "v_r*(K_eq * substrate - product)"
    parameters :=
      [⟨"K_eq", some "mmole / l", false, none⟩,
       ⟨"v_r", some "l / mmole min", true, none⟩] }

/-- The species registry of the edited document: the renamed reactants
and proteins, the added enzyme instances and the added complexes. -/
def speciesRegistry : List String :=
  ["PGME", "7-ADCA", "CEX", "PG", "E", "EA", "ED",
   "E·PGME", "E·7-ADCA", "E·PG", "E·PGME·PGME", "EA·7-ADCA", "EA·PGME", "E·CEX"]

/-- The document right after the three `addGlobalParameter` calls of the
notebook: globals `v_r`, `K_si` and `K_n`, no reactions yet. -/
def docWithGlobals : EnzymeMLDocument :=
  (((⟨speciesRegistry, [], []⟩ : EnzymeMLDocument).addGlobalParameter
      "v_r" (some "l / mmole min") true).addGlobalParameter
      "K_si" (some "mmole / l") false).addGlobalParameter
      "K_n" (some "mmole / l") false

/-- A reaction of the micro-kinetic network before a model is attached. -/
def mkReaction (id name : String) (reversible : Bool)
    (educts products : List String) : EnzymeReaction :=
  ⟨id, name, reversible, educts, products, none⟩

/-- One notebook model assignment `rN.model = gen(kwargs)`: invoke the
generator built by `gen` with the call's keyword arguments and attach the
resulting bound model. -/
def assignModel (r : EnzymeReaction) (gen : Except TemplateError ModelTemplate)
    (kwargs : List (String × KwVal)) : EnzymeReaction :=
  match gen with
  | Except.error _ => r
  | Except.ok t =>
      match callGenerator t kwargs with
      | Except.error _ => r
      | Except.ok m => attachModel r m

/-- Reaction 1 with its model, as assigned in the notebook. -/
def r1 : EnzymeReaction :=
  assignModel (mkReaction "r1" "reaction-1" true ["E·7-ADCA"] ["E", "7-ADCA"])
    mass_eq
    [("product", KwVal.speciesList ["E", "7-ADCA"]),
     ("substrate", KwVal.species "E·7-ADCA"),
     ("mapping", KwVal.table [("K_eq", "K_n")])]

/-- Reaction 2 with its model, as assigned in the notebook. -/
def r2 : EnzymeReaction :=
  assignModel (mkReaction "r2" "reaction-2" true ["E·PGME"] ["E", "PGME"])
    mass_eq
    [("product", KwVal.speciesList ["E", "PGME"]),
     ("substrate", KwVal.species "E·PGME"),
     ("mapping", KwVal.table [("K_eq", "K_s")])]

/-- Reaction 3 with its model, as assigned in the notebook. -/
def r3 : EnzymeReaction :=
  assignModel (mkReaction "r3" "reaction-3" false ["E·PGME"] ["EA"])
    eq_irrev
    [("substrate", KwVal.species "E·PGME"),
     ("mapping", KwVal.table [("K_1", "k_2")])]

/-- Reaction 4 with its model, as assigned in the notebook. -/
def r4 : EnzymeReaction :=
  assignModel (mkReaction "r4" "reaction-4" true ["E·PGME·PGME"] ["E·PGME", "PGME"])
    mass_eq
    [("product", KwVal.speciesList ["E·PGME", "PGME"]),
     ("substrate", KwVal.species "E·PGME·PGME"),
     ("mapping", KwVal.table [("K_eq", "K_si")])]

/-- Reaction 5 with its model, as assigned in the notebook. -/
def r5 : EnzymeReaction :=
  assignModel (mkReaction "r5" "reaction-5" true ["EA·PGME"] ["EA", "PGME"])
    mass_eq
    [("product", KwVal.speciesList ["EA", "PGME"]),
     ("substrate", KwVal.species "EA·PGME"),
     ("mapping", KwVal.table [("K_eq", "K_si")])]

/-- Reaction 6 with its model, as assigned in the notebook. -/
def r6 : EnzymeReaction :=
  assignModel (mkReaction "r6" "reaction-6" false ["EA·PGME"] ["E", "PG"])
    eq_irrev
    [("substrate", KwVal.species "EA·PGME"),
     ("mapping", KwVal.table [("K_1", "k_6")])]

/-- Reaction 7 with its model, as assigned in the notebook. -/
def r7 : EnzymeReaction :=
  assignModel (mkReaction "r7" "reaction-7" false ["EA"] ["E", "PG"])
    eq_irrev
    [("substrate", KwVal.species "EA"),
     ("mapping", KwVal.table [("K_1", "k_3")])]

/-- Reaction 8 with its model, as assigned in the notebook. -/
def r8 : EnzymeReaction :=
  assignModel (mkReaction "r8" "reaction-8" true ["E·PG"] ["E", "PG"])
    mass_eq
    [("product", KwVal.speciesList ["E", "PG"]),
     ("substrate", KwVal.species "E·PG"),
     ("mapping", KwVal.table [("K_eq", "K_pg")])]

/-- Reaction 9 with its model, as assigned in the notebook. -/
def r9 : EnzymeReaction :=
  assignModel (mkReaction "r9" "reaction-9" true ["EA·7-ADCA"] ["EA", "7-ADCA"])
    mass_eq
    [("product", KwVal.speciesList ["EA", "7-ADCA"]),
     ("substrate", KwVal.species "EA·7-ADCA"),
     ("mapping", KwVal.table [("K_eq", "K_n")])]

/-- Reaction 10 with its model, as assigned in the notebook. -/
def r10 : EnzymeReaction :=
  assignModel (mkReaction "r10" "reaction-10" false ["EA·7-ADCA"] ["E", "PG", "7-ADCA"])
    eq_irrev
    [("substrate", KwVal.species "EA·7-ADCA"),
     ("mapping", KwVal.table [("K_1", "k_5")])]

/-- Reaction 11 with its model, as assigned in the notebook. -/
def r11 : EnzymeReaction :=
  assignModel (mkReaction "r11" "reaction-11" true ["EA·7-ADCA"] ["E·CEX"])
    eq_rev
    [("substrate", KwVal.species "EA·7-ADCA"),
     ("product", KwVal.species "E·CEX"),
     ("mapping", KwVal.table [("K_1", "k_4"), ("K_2", "k_4b")])]

/-- Reaction 12 with its model, as assigned in the notebook. -/
def r12 : EnzymeReaction :=
  assignModel (mkReaction "r12" "reaction-12" true ["E·CEX"] ["E", "CEX"])
    mass_eq
    [("substrate", KwVal.species "E·CEX"),
     ("product", KwVal.speciesList ["E", "CEX"]),
     ("mapping", KwVal.table [("K_eq", "K_p")])]

/-- Reaction 13 with its model, as assigned in the notebook. -/
def r13 : EnzymeReaction :=
  assignModel (mkReaction "r13" "Enzyme deactivation" false ["E"] ["ED"])
    eq_irrev
    [("substrate", KwVal.species "E"),
     ("mapping", KwVal.table [("K_1", "k_d")])]

/-- The document after all thirteen reactions are added, as passed to
`enzmldoc.toFile`. -/
def finalDoc : EnzymeMLDocument :=
  docWithGlobals.addReactions [r1, r2, r3, r4, r5, r6, r7, r8, r9, r10, r11, r12, r13]

end Scenario5

/-- The bound model the notebook's first assignment produces: the
equilibrium mass-action template bound to reaction 1 with `K_eq` renamed
to the global symbol `K_n`. -/
def r1BoundModel : BoundModel :=
  { name := "MassAction Keq"
    equation := "v_r*(K_n * E·7-ADCA - (E + 7-ADCA))"
    parameters :=
      [("K_eq", ⟨"K_n", some "mmole / l", false, none⟩),
       ("v_r", ⟨"v_r", some "l / mmole min", true, none⟩)]
    species := ["E·7-ADCA", "E", "7-ADCA"] }

/-- A document in which two bound models resolve the same parameter
symbol `k_x` with different units: the consistency check must reject
it. -/
def conflictingDoc : EnzymeMLDocument :=
  { species := ["E"]
    global_parameters := []
    reactions :=
      [⟨"rA", "conflict-A", false, ["E"], ["E"],
        some ⟨"M1", "k_x * E", [("K_1", ⟨"k_x", some "1 / min", false, none⟩)], ["E"]⟩⟩,
       ⟨"rB", "conflict-B", false, ["E"], ["E"],
        some ⟨"M2", "k_x * E", [("K_1", ⟨"k_x", some "mmole / l", false, none⟩)], ["E"]⟩⟩] }

/-- A template whose equation has a free variable literally named
`mapping`: the keyword-argument interface can never bind it. -/
def mappingVarTemplate : ModelTemplate :=
  { name := "Mapping-Var"
    equation := "K * mapping"
    parameters := [⟨"K", some "1 / s", false, none⟩] }

/-! Basic lemmas about tokenisation and resolution. -/

theorem mem_identTokens {tok : String} {equation : String} :
    tok ∈ identTokens equation ↔ Chunk.id tok ∈ tokenize equation := by
  unfold identTokens
  rw [List.mem_filterMap]
  constructor
  · rintro ⟨c, hc, hsome⟩
    cases c with
    | id s => cases hsome; exact hc
    | sym s => cases hsome
  · intro h
    exact ⟨Chunk.id tok, h, rfl⟩

theorem mem_freeTokens {t : ModelTemplate} {tok : String} :
    tok ∈ t.freeTokens ↔
      Chunk.id tok ∈ tokenize t.equation ∧ t.paramNames.contains tok = false := by
  unfold ModelTemplate.freeTokens
  rw [List.mem_filter, mem_identTokens, Bool.not_eq_true']

theorem resolveChunk_error_msg {params : List String}
    {bindings : List (String × Binding)} {mapping : List (String × String)}
    {c : Chunk} {e : BindingError}
    (h : resolveChunk params bindings mapping c = Except.error e) :
    e = ⟨"unbound free variable"⟩ := by
  cases c with
  | sym s => exact Except.noConfusion h
  | id tok =>
      simp only [resolveChunk] at h
      split at h
      · exact Except.noConfusion h
      · split at h
        · injection h with h'
          exact h'.symm
        · exact Except.noConfusion h
        · exact Except.noConfusion h

theorem resolveChunks_error_msg {params : List String}
    {bindings : List (String × Binding)} {mapping : List (String × String)}
    {cs : List Chunk} {e : BindingError}
    (h : resolveChunks params bindings mapping cs = Except.error e) :
    e = ⟨"unbound free variable"⟩ := by
  induction cs with
  | nil => cases h
  | cons c cs ih =>
      unfold resolveChunks at h
      cases hc : resolveChunk params bindings mapping c with
      | error e' =>
          rw [hc] at h
          cases h
          exact resolveChunk_error_msg hc
      | ok s =>
          rw [hc] at h
          cases hrest : resolveChunks params bindings mapping cs with
          | error e' => rw [hrest] at h; cases h; exact ih hrest
          | ok rest => rw [hrest] at h; cases h

theorem resolveChunks_unbound {params : List String}
    {bindings : List (String × Binding)} {mapping : List (String × String)}
    {cs : List Chunk} {tok : String}
    (h1 : Chunk.id tok ∈ cs) (h2 : params.contains tok = false)
    (h3 : bindings.lookup tok = none) :
    resolveChunks params bindings mapping cs = Except.error ⟨"unbound free variable"⟩ := by
  induction cs with
  | nil => cases h1
  | cons c cs ih =>
      rcases List.mem_cons.mp h1 with hhead | htail
      · have hstep : resolveChunk params bindings mapping c =
            Except.error ⟨"unbound free variable"⟩ := by
          rw [← hhead]
          have hnot : tok ∉ params := by simpa using h2
          simp [resolveChunk, hnot, h3]
        simp only [resolveChunks, hstep]
      · cases hc : resolveChunk params bindings mapping c with
        | error e' =>
            simp only [resolveChunks, hc, resolveChunk_error_msg hc]
        | ok s =>
            simp only [resolveChunks, hc, ih htail]

theorem resolveChunk_total_of_bound {params : List String}
    {bindings : List (String × Binding)} {mapping : List (String × String)}
    {c : Chunk}
    (h : ∀ tok, c = Chunk.id tok → params.contains tok = false →
      (bindings.lookup tok).isSome) :
    resolveChunk params bindings mapping c =
      Except.ok (resolveChunkTotal params bindings mapping c) := by
  cases c with
  | sym s => rfl
  | id tok =>
      simp only [resolveChunk, resolveChunkTotal]
      by_cases hp : params.contains tok = true
      · rw [if_pos hp, if_pos hp]
      · have hfalse : params.contains tok = false := by
          simpa using hp
        have hsome := h tok rfl hfalse
        rw [if_neg hp, if_neg hp]
        cases hb : bindings.lookup tok with
        | none => rw [hb] at hsome; exact absurd hsome (by simp)
        | some b => cases b <;> rfl

theorem resolveChunks_total_of_bound {params : List String}
    {bindings : List (String × Binding)} {mapping : List (String × String)}
    {cs : List Chunk}
    (h : ∀ tok, Chunk.id tok ∈ cs → params.contains tok = false →
      (bindings.lookup tok).isSome) :
    resolveChunks params bindings mapping cs =
      Except.ok (resolveChunksTotal params bindings mapping cs) := by
  induction cs with
  | nil => rfl
  | cons c cs ih =>
      unfold resolveChunks resolveChunksTotal
      rw [resolveChunk_total_of_bound fun tok hc => h tok (hc ▸ List.mem_cons_self c cs)]
      rw [ih fun tok hc => h tok (List.mem_cons_of_mem c hc)]

/-- A bind in which every free variable of the template is bound
succeeds, and its equation is the chunkwise total resolution. -/
theorem bind_ok_of_bound {t : ModelTemplate} {bindings : List (String × Binding)}
    {mapping : List (String × String)}
    (h : ∀ tok ∈ t.freeTokens, (bindings.lookup tok).isSome) :
    bind t bindings mapping =
      Except.ok
        { name := t.name
          equation := resolveChunksTotal t.paramNames bindings mapping (tokenize t.equation)
          parameters := resolvedParams t mapping
          species := boundSpecies t bindings } := by
  unfold bind
  rw [resolveChunks_total_of_bound
    fun tok hmem hp => h tok (mem_freeTokens.mpr ⟨hmem, hp⟩)]

/-- A bind in which some free variable of the template is unbound fails
with the unbound-free-variable error. -/
theorem bind_error_of_unbound {t : ModelTemplate}
    {bindings : List (String × Binding)} {mapping : List (String × String)}
    {tok : String} (h1 : tok ∈ t.freeTokens) (h2 : bindings.lookup tok = none) :
    bind t bindings mapping = Except.error ⟨"unbound free variable"⟩ := by
  obtain ⟨hmem, hp⟩ := mem_freeTokens.mp h1
  unfold bind
  rw [resolveChunks_unbound hmem hp h2]

theorem kwBindings_lookup_mapping (kwargs : List (String × KwVal)) :
    (kwBindings kwargs).lookup "mapping" = none := by
  induction kwargs with
  | nil => rfl
  | cons nv rest ih =>
      obtain ⟨n, v⟩ := nv
      by_cases hn : n = "mapping"
      · simp [kwBindings, hn, ih]
      · have hb : ("mapping" == n) = false := by
          simp [Ne.symm hn]
        cases v with
        | species s => simp [kwBindings, hn, List.lookup, hb, ih]
        | speciesList ss => simp [kwBindings, hn, List.lookup, hb, ih]
        | table m => simp [kwBindings, hn, ih]

theorem kwMapping_of_table {kwargs : List (String × KwVal)}
    {m : List (String × String)}
    (h : kwargs.lookup "mapping" = some (KwVal.table m)) :
    kwMapping kwargs = m := by
  unfold kwMapping
  rw [h]

/-! Claim theorems. -/

/-- Claim C1: the `MassAction Reversible` generator with template
equation `K_1 * substrate - K_2 * product` and parameters `K_1`, `K_2`
of unit `1 / min`, bound with substrate `E·7-ADCA`, product
`[E, 7-ADCA]` and empty mapping, yields the resolved equation
`K_1 * E·7-ADCA - K_2 * (E + 7-ADCA)` (the list-valued free variable
combined additively) and the identity parameter table
`{K_1 : K_1, K_2 : K_2}`. -/
theorem mass_action_reversible_example_binding :
    Scenario5.eq_rev = Except.ok Scenario5.eq_rev_template ∧
    bind Scenario5.eq_rev_template
      [("substrate", Binding.single "E·7-ADCA"),
       ("product", Binding.multiple ["E", "7-ADCA"])] [] =
      Except.ok
        { name := "MassAction Reversible"
          equation := "K_1 * E·7-ADCA - K_2 * (E + 7-ADCA)"
          parameters :=
            [("K_1", ⟨"K_1", some "1 / min", false, none⟩),
             ("K_2", ⟨"K_2", some "1 / min", false, none⟩)]
          species := ["E·7-ADCA", "E", "7-ADCA"] } :=
  ⟨rfl, rfl⟩

/-- Claim C2, counterexample: in the notebook's very first model
assignment the free variable `product` occurs once in the `MassAction
Keq` equation while the bound list has two elements, yet the bind
succeeds (combining the list additively) instead of failing with a
count-mismatch `BindingError` as the claim requires. -/
theorem list_binding_count_mismatch_refuted :
    occurrenceCount "product" Scenario5.mass_eq_template.equation = 1 ∧
    (["E", "7-ADCA"] : List String).length = 2 ∧
    bind Scenario5.mass_eq_template
      [("product", Binding.multiple ["E", "7-ADCA"]),
       ("substrate", Binding.single "E·7-ADCA")]
      [("K_eq", "K_n")] = Except.ok r1BoundModel :=
  ⟨rfl, rfl, rfl⟩

/-- Claim C2, amended: a free variable bound to a list of species
identifiers is substituted at every textual occurrence of the token by
the parenthesized additive combination of all list elements; no
count-mismatch check exists, so a bind succeeds — with the chunkwise
total resolution as its equation — whenever every free variable has an
entry, regardless of the lengths of the bound lists. -/
theorem list_binding_additive_combination (t : ModelTemplate)
    (bindings : List (String × Binding)) (mapping : List (String × String))
    (h : ∀ tok ∈ t.freeTokens, (bindings.lookup tok).isSome) :
    bind t bindings mapping =
      Except.ok
        { name := t.name
          equation :=
            resolveChunksTotal t.paramNames bindings mapping (tokenize t.equation)
          parameters := resolvedParams t mapping
          species := boundSpecies t bindings } ∧
    ∀ tok ss, bindings.lookup tok = some (Binding.multiple ss) →
      t.paramNames.contains tok = false →
      resolveChunkTotal t.paramNames bindings mapping (Chunk.id tok) =
        "(" ++ String.intercalate " + " ss ++ ")" := by
  refine ⟨bind_ok_of_bound h, ?_⟩
  intro tok ss hb hp
  have hnot : tok ∉ t.paramNames := by simpa using hp
  simp [resolveChunkTotal, hnot, hb, combineList]

/-- Claim C2, amended, witness: the amended rule evaluated on the
notebook's reaction-1 binding. -/
theorem list_binding_additive_combination_witness :
    bind Scenario5.mass_eq_template
      [("product", Binding.multiple ["E", "7-ADCA"]),
       ("substrate", Binding.single "E·7-ADCA")]
      [("K_eq", "K_n")] =
      Except.ok
        { name := Scenario5.mass_eq_template.name
          equation :=
            resolveChunksTotal Scenario5.mass_eq_template.paramNames
              [("product", Binding.multiple ["E", "7-ADCA"]),
               ("substrate", Binding.single "E·7-ADCA")]
              [("K_eq", "K_n")] (tokenize Scenario5.mass_eq_template.equation)
          parameters := resolvedParams Scenario5.mass_eq_template [("K_eq", "K_n")]
          species :=
            boundSpecies Scenario5.mass_eq_template
              [("product", Binding.multiple ["E", "7-ADCA"]),
               ("substrate", Binding.single "E·7-ADCA")] } :=
  (list_binding_additive_combination Scenario5.mass_eq_template
    [("product", Binding.multiple ["E", "7-ADCA"]),
     ("substrate", Binding.single "E·7-ADCA")]
    [("K_eq", "K_n")] (by decide)).1

/-- Claim C3: a generator construction succeeds only when the equation
is non-empty and every declared parameter appears as a token of the
equation; a declared parameter absent from a non-empty equation makes
construction fail with the `declared parameter not used`
`TemplateError`, producing no template. -/
theorem create_generator_validation (n equation : String)
    (decls : List (String × ParamConfig)) :
    (∀ t, KineticModel.createGenerator n equation decls = Except.ok t →
        equation ≠ "" ∧ ∀ p ∈ decls.map Prod.fst, p ∈ identTokens equation) ∧
    (equation ≠ "" → (∃ p ∈ decls.map Prod.fst, p ∉ identTokens equation) →
        KineticModel.createGenerator n equation decls =
          Except.error ⟨"declared parameter not used"⟩) := by
  constructor
  · intro t ht
    unfold KineticModel.createGenerator at ht
    split at ht
    · exact Except.noConfusion ht
    · next hne =>
        split at ht
        · next hall =>
            refine ⟨hne, ?_⟩
            intro p hp
            obtain ⟨pc, hmem, hfst⟩ := List.mem_map.mp hp
            have hc := List.all_eq_true.mp hall pc hmem
            rw [hfst] at hc
            exact List.elem_iff.mp hc
        · exact Except.noConfusion ht
  · intro hne hex
    obtain ⟨p, hp, hnot⟩ := hex
    unfold KineticModel.createGenerator
    rw [if_neg hne]
    have hall : ¬(decls.all (fun pc => (identTokens equation).contains pc.1) = true) := by
      intro hall
      obtain ⟨pc, hmem, hfst⟩ := List.mem_map.mp hp
      have hc := List.all_eq_true.mp hall pc hmem
      rw [hfst] at hc
      exact hnot (List.elem_iff.mp hc)
    rw [if_neg hall]

/-- Claim C3, witness: a template declaring `K_3` that never appears in
its equation fails construction. -/
theorem create_generator_validation_witness :
    KineticModel.createGenerator "Bad-Model" "K_1 * substrate"
      [("K_3", ⟨some "1 / min", false, none⟩)] =
      Except.error ⟨"declared parameter not used"⟩ :=
  (create_generator_validation "Bad-Model" "K_1 * substrate"
    [("K_3", ⟨some "1 / min", false, none⟩)]).2 (by decide)
    ⟨"K_3", by decide, by decide⟩

/-- Claim C4: a bind call in which some free-variable token of the
equation has no entry in the variable bindings fails with the
`unbound free variable` `BindingError`, producing no bound model. -/
theorem bind_unbound_free_variable_error (t : ModelTemplate)
    (bindings : List (String × Binding)) (mapping : List (String × String))
    (tok : String) (h1 : tok ∈ t.freeTokens)
    (h2 : bindings.lookup tok = none) :
    bind t bindings mapping = Except.error ⟨"unbound free variable"⟩ :=
  bind_error_of_unbound h1 h2

/-- Claim C4, witness: binding the `MassAction Keq` template without an
entry for its free variable `product` fails. -/
theorem bind_unbound_free_variable_error_witness :
    bind Scenario5.mass_eq_template
      [("substrate", Binding.single "E·7-ADCA")] [] =
      Except.error ⟨"unbound free variable"⟩ :=
  bind_unbound_free_variable_error Scenario5.mass_eq_template
    [("substrate", Binding.single "E·7-ADCA")] [] "product" (by decide) (by decide)

/-- Claim C5: the resolved parameter table of every successful bind
associates each declared template parameter with its mapping image —
the identity name when the mapping has no entry — and the renamed
symbol carries the original unit, constancy and value metadata
unchanged. -/
theorem resolved_parameter_table_roundtrip (t : ModelTemplate)
    (bindings : List (String × Binding)) (mapping : List (String × String))
    (mo : BoundModel) (h : bind t bindings mapping = Except.ok mo) :
    mo.parameters =
      t.parameters.map fun p =>
        (p.name, ⟨(mapping.lookup p.name).getD p.name, p.unit, p.constant, p.value⟩) := by
  unfold bind at h
  cases hr : resolveChunks t.paramNames bindings mapping (tokenize t.equation) with
  | error e => rw [hr] at h; exact Except.noConfusion h
  | ok eqn =>
      rw [hr] at h
      injection h with h'
      rw [← h']
      rfl

/-- Claim C5, witness: the parameter table of the notebook's reaction-1
bound model. -/
theorem resolved_parameter_table_roundtrip_witness :
    r1BoundModel.parameters =
      Scenario5.mass_eq_template.parameters.map fun p =>
        (p.name,
          ⟨(([("K_eq", "K_n")] : List (String × String)).lookup p.name).getD p.name,
            p.unit, p.constant, p.value⟩) :=
  resolved_parameter_table_roundtrip Scenario5.mass_eq_template
    [("product", Binding.multiple ["E", "7-ADCA"]),
     ("substrate", Binding.single "E·7-ADCA")]
    [("K_eq", "K_n")] r1BoundModel rfl

/-- Claim C6: in the notebook document, reactions 1 and 9 are both
bound with `K_eq` mapped to `K_n`, the exported document registers
exactly one global parameter named `K_n`, and the pre-export
consistency check passes. -/
theorem shared_global_parameter_single_registration :
    (Scenario5.finalDoc.global_parameters.filter fun g => g.name == "K_n").length = 1 ∧
    (∃ m, Scenario5.r1.model = some m ∧
        m.parameters.lookup "K_eq" = some ⟨"K_n", some "mmole / l", false, none⟩) ∧
    (∃ m, Scenario5.r9.model = some m ∧
        m.parameters.lookup "K_eq" = some ⟨"K_n", some "mmole / l", false, none⟩) ∧
    EnzymeMLDocument.consistencyCheck Scenario5.finalDoc = Except.ok () :=
  ⟨rfl, ⟨r1BoundModel, rfl, rfl⟩,
    ⟨{ name := "MassAction Keq"
       equation := "v_r*(K_n * EA·7-ADCA - (EA + 7-ADCA))"
       parameters :=
         [("K_eq", ⟨"K_n", some "mmole / l", false, none⟩),
          ("v_r", ⟨"v_r", some "l / mmole min", true, none⟩)]
       species := ["EA·7-ADCA", "EA", "7-ADCA"] }, rfl, rfl⟩, rfl⟩

/-- Claim C7: exporting a document runs the consistency check; a
document whose bound models give one resolved parameter symbol
conflicting unit or constancy attributes is rejected with a
`ConsistencyError` and no output is produced, a successful export
contains the complete document, and the in-memory document is unchanged
by the export step either way. -/
theorem export_consistency_aborts_on_conflict (doc : EnzymeMLDocument) :
    (EnzymeMLDocument.attributesAgree doc = false →
        ∃ e, EnzymeMLDocument.toFile doc = Except.error e) ∧
    (∀ out, EnzymeMLDocument.toFile doc = Except.ok out →
        EnzymeMLDocument.speciesKnown doc = true ∧
        EnzymeMLDocument.attributesAgree doc = true ∧ out.content = doc) ∧
    (EnzymeMLDocument.exportStep doc).1 = doc := by
  refine ⟨?_, ?_, rfl⟩
  · intro hfail
    cases hs : EnzymeMLDocument.speciesKnown doc with
    | false =>
        exact ⟨⟨"unknown species"⟩, by
          simp [EnzymeMLDocument.toFile, EnzymeMLDocument.consistencyCheck, hs]⟩
    | true =>
        exact ⟨⟨"conflicting parameter attributes"⟩, by
          simp [EnzymeMLDocument.toFile, EnzymeMLDocument.consistencyCheck, hs, hfail]⟩
  · intro out hout
    cases hs : EnzymeMLDocument.speciesKnown doc with
    | false =>
        rw [EnzymeMLDocument.toFile, EnzymeMLDocument.consistencyCheck] at hout
        simp [hs] at hout
    | true =>
        cases ha : EnzymeMLDocument.attributesAgree doc with
        | false =>
            rw [EnzymeMLDocument.toFile, EnzymeMLDocument.consistencyCheck] at hout
            simp [hs, ha] at hout
        | true =>
            refine ⟨rfl, rfl, ?_⟩
            rw [EnzymeMLDocument.toFile, EnzymeMLDocument.consistencyCheck] at hout
            simp [hs, ha] at hout
            rw [← hout]

/-- Claim C7, witness: the document with two bound models resolving
`k_x` at different units is rejected by the export. -/
theorem export_consistency_aborts_on_conflict_witness :
    ∃ e, EnzymeMLDocument.toFile conflictingDoc = Except.error e :=
  (export_consistency_aborts_on_conflict conflictingDoc).1 (by decide)

/-- Claim C8: a generator invocation is pure: it leaves the caller's
state (document and reactions) untouched and returns exactly the value
of `bind`; attaching the bound model to a reaction is the separate
caller action that changes only the reaction's model field. -/
theorem generator_invocation_is_pure (st : SessionState) (t : ModelTemplate)
    (bindings : List (String × Binding)) (mapping : List (String × String))
    (r : EnzymeReaction) (mo : BoundModel) :
    (invokeGenerator st t bindings mapping).1 = st ∧
    (invokeGenerator st t bindings mapping).2 = bind t bindings mapping ∧
    (attachModel r mo).id = r.id ∧
    (attachModel r mo).name = r.name ∧
    (attachModel r mo).reversible = r.reversible ∧
    (attachModel r mo).educts = r.educts ∧
    (attachModel r mo).products = r.products ∧
    (attachModel r mo).model = some mo :=
  ⟨rfl, rfl, rfl, rfl, rfl, rfl, rfl, rfl⟩

/-- Claim C9: the keyword argument named `mapping` is always consumed
as the parameter-rename table, so a template whose equation has a free
variable literally named `mapping` can never have it bound through the
generator call interface — every such call fails with the unbound-free-
variable error — and a table-valued `mapping` argument is exactly the
rename table the bind receives. -/
theorem mapping_keyword_reserved (t : ModelTemplate)
    (kwargs : List (String × KwVal)) :
    ("mapping" ∈ t.freeTokens →
        callGenerator t kwargs = Except.error ⟨"unbound free variable"⟩) ∧
    (∀ m, kwargs.lookup "mapping" = some (KwVal.table m) →
        callGenerator t kwargs = bind t (kwBindings kwargs) m) := by
  constructor
  · intro h
    exact bind_error_of_unbound h (kwBindings_lookup_mapping kwargs)
  · intro m hm
    unfold callGenerator
    rw [kwMapping_of_table hm]

/-- Claim C9, witness: the template with free variable `mapping` cannot
be bound even when a `mapping` argument is supplied. -/
theorem mapping_keyword_reserved_witness :
    callGenerator mappingVarTemplate [("mapping", KwVal.table [])] =
      Except.error ⟨"unbound free variable"⟩ :=
  (mapping_keyword_reserved mappingVarTemplate
    [("mapping", KwVal.table [])]).1 (by decide)

/-- Claim C10: binds whose mapping renames onto symbols never
registered as global parameters (`K_s`, `K_pg`, `K_p`, `k_2`, `k_4`,
`k_4b`, `k_5`, `k_6`, `k_3`, `k_d`) all succeed; the renamed symbol
carries the template's metadata, none of those symbols is a document
global, so each is reaction-local at export time, and the export of the
full document still succeeds. -/
theorem unregistered_rename_targets_resolved_at_export :
    (∃ m, Scenario5.r2.model = some m ∧
        m.parameters.lookup "K_eq" = some ⟨"K_s", some "mmole / l", false, none⟩) ∧
    Scenario5.docWithGlobals.global_parameters.map GlobalParameter.name =
      ["v_r", "K_si", "K_n"] ∧
    ([Scenario5.r2, Scenario5.r3, Scenario5.r6, Scenario5.r7, Scenario5.r8,
      Scenario5.r10, Scenario5.r11, Scenario5.r12, Scenario5.r13].all
        fun r => r.model.isSome) = true ∧
    ((["K_s", "K_pg", "K_p", "k_2", "k_4", "k_4b", "k_5", "k_6", "k_3", "k_d"] :
        List String).all
      fun s => !(Scenario5.finalDoc.isGlobalSymbol s)) = true ∧
    EnzymeMLDocument.toFile Scenario5.finalDoc =
      Except.ok ⟨Scenario5.finalDoc⟩ :=
  ⟨⟨{ name := "MassAction Keq"
      equation := "v_r*(K_s * E·PGME - (E + PGME))"
      parameters :=
        [("K_eq", ⟨"K_s", some "mmole / l", false, none⟩),
         ("v_r", ⟨"v_r", some "l / mmole min", true, none⟩)]
      species := ["E·PGME", "E", "PGME"] }, rfl, rfl⟩, rfl, rfl, rfl, rfl⟩

end EnzymeML
